import Mathlib

/-!
Verification development for the DFS repository (metadata service + storage
nodes). The Python source is shallowly embedded: each relevant Python
function becomes an executable Lean definition over explicit state values
(SQLite tables become lists of rows, the chunk directory becomes two
association lists keyed by chunk id, time instants become naturals, UUIDs
become naturals supplied as explicit fresh-value parameters where the code
calls uuid4). External Python library calls (gzip, hashlib) are modelled by
small deterministic Lean functions that expose exactly the behavior the
repository relies on; this is documented at each such definition.
-/

namespace DFS

/-! ## Association lists

The chunk directory of a storage node (`{chunk_id}.chunk` and
`{chunk_id}.checksum` files) and lookups by key are modelled with
association lists keyed by `Nat`. `alist_set` models opening a file for
writing (create or truncate-and-replace), `alist_remove` models `unlink`,
`alist_lookup` models reading a file if it exists. -/

def alist_lookup {α : Type} : List (Nat × α) → Nat → Option α
  | [], _ => none
  | (k, v) :: t, key => if k = key then some v else alist_lookup t key

def alist_set {α : Type} : List (Nat × α) → Nat → α → List (Nat × α)
  | [], key, v => [(key, v)]
  | (k, w) :: t, key, v =>
    if k = key then (key, v) :: t else (k, w) :: alist_set t key v

def alist_remove {α : Type} (l : List (Nat × α)) (key : Nat) : List (Nat × α) :=
  l.filter (fun p => p.1 ≠ key)

theorem alist_lookup_set_self {α : Type} (l : List (Nat × α)) (k : Nat) (v : α) :
    alist_lookup (alist_set l k v) k = some v := by
  induction l with
  | nil => simp [alist_set, alist_lookup]
  | cons h t ih =>
    by_cases hk : h.1 = k
    · simp [alist_set, hk, alist_lookup]
    · simp [alist_set, hk, alist_lookup, ih]

theorem alist_lookup_set_other {α : Type} (l : List (Nat × α)) (k j : Nat) (v : α)
    (hjk : j ≠ k) : alist_lookup (alist_set l k v) j = alist_lookup l j := by
  have hkj : ¬ (k = j) := fun h => hjk h.symm
  induction l with
  | nil => simp [alist_set, alist_lookup, hkj]
  | cons hd t ih =>
    obtain ⟨k1, v1⟩ := hd
    by_cases hk : k1 = k
    · subst hk
      simp [alist_set, alist_lookup, hkj]
    · simp [alist_set, hk, alist_lookup, ih]

theorem alist_lookup_remove_self {α : Type} (l : List (Nat × α)) (k : Nat) :
    alist_lookup (alist_remove l k) k = none := by
  induction l with
  | nil => simp [alist_remove, alist_lookup]
  | cons hd t ih =>
    obtain ⟨k1, v1⟩ := hd
    by_cases hk : k1 = k
    · simpa [alist_remove, List.filter_cons, hk] using ih
    · simpa [alist_remove, List.filter_cons, hk, alist_lookup] using ih

theorem alist_lookup_remove_other {α : Type} (l : List (Nat × α)) (k j : Nat)
    (hjk : j ≠ k) : alist_lookup (alist_remove l k) j = alist_lookup l j := by
  have hkj : ¬ (k = j) := fun h => hjk h.symm
  induction l with
  | nil => simp [alist_remove]
  | cons hd t ih =>
    obtain ⟨k1, v1⟩ := hd
    by_cases hk : k1 = k
    · subst hk
      simpa [alist_remove, List.filter_cons, alist_lookup, hkj] using ih
    · by_cases hj : k1 = j
      · simp [alist_remove, List.filter_cons, hk, alist_lookup, hj, hjk]
      · simp [alist_remove, List.filter_cons, hk, alist_lookup, hj]
        simpa [alist_remove] using ih

/-! ## External library models

`backend/datanode/storage.py` calls two functions that live outside this
repository: `gzip.compress` / `gzip.decompress` (Python standard library)
and `hashlib.sha256(...).hexdigest()` (reached through
`shared/utils.py::calculate_checksum`). They are modelled as deterministic
Lean functions exposing the properties the repository's code relies on:

* compression is invertible (`gzip.decompress (gzip.compress b) = b`) and
  decompression of data that does not carry the gzip magic header raises
  `gzip.BadGzipFile` (modelled as `none`), which `retrieve_chunk` uses for
  its legacy-uncompressed fallback;
* the checksum is a fixed function of the input bytes (SHA-256 itself is
  library code; the hex digest is modelled as a natural number produced by
  a deterministic digest function, so distinct values behave exactly like
  distinct hex strings).

Bytes are `List Nat`. -/

def gzip_compress (b : List Nat) : List Nat := 31 :: 139 :: b

def gzip_decompress : List Nat → Option (List Nat)
  | 31 :: 139 :: rest => some rest
  | _ => none

theorem gzip_decompress_compress (b : List Nat) :
    gzip_decompress (gzip_compress b) = some b := rfl

/-- Model of `shared/utils.py::calculate_checksum`, which is
`hashlib.sha256(data).hexdigest()`. The SHA-256 core is Python
standard-library code outside this repository; it is modelled as a
deterministic digest of the byte list. Every claim that mentions the
checksum depends only on the digest being a fixed function of the bytes. -/
def calculate_checksum (data : List Nat) : Nat :=
  data.foldl (fun h b => (h * 131 + b % 256 + 1) % (2 ^ 64)) 7

/-! ## Chunk store state (`backend/datanode/storage.py`, class `ChunkStorage`)

The storage directory holds `{chunk_id}.chunk` files (compressed payload)
and `{chunk_id}.checksum` files (hex digest of the uncompressed payload). -/

structure ChunkStorage where
  chunks : List (Nat × List Nat)
  checksums : List (Nat × Nat)
deriving DecidableEq

/-- Result dict of `store_chunk` (the fields the claims mention; the
`compression_ratio` string, node id and replication fields are not
modelled — replication is a network effect outside the embedding). -/
structure StoreResult where
  size : Nat
  compressed_size : Nat
  checksum : Nat
deriving DecidableEq

/-- `ChunkStorage.store_chunk` (storage.py lines 31-88) with
`replicate_to = None`: computes the checksum of the original bytes,
compresses, writes the compressed payload to `{chunk_id}.chunk` and the
checksum to `{chunk_id}.checksum` (both by plain `open(path, "wb")` at the
final path), and returns the result dict. -/
def store_chunk (st : ChunkStorage) (chunk_id : Nat) (chunk_data : List Nat) :
    ChunkStorage × StoreResult :=
  let checksum := calculate_checksum chunk_data
  let compressed_data := gzip_compress chunk_data
  ({ chunks := alist_set st.chunks chunk_id compressed_data,
     checksums := alist_set st.checksums chunk_id checksum },
   { size := chunk_data.length,
     compressed_size := compressed_data.length,
     checksum := checksum })

/-- Outcome of `retrieve_chunk`: `notFound` and `mismatch` are the two
`DFSStorageError` raises; `ok` carries the uncompressed bytes and the
recomputed checksum. -/
inductive RetrieveResult
  | notFound
  | mismatch
  | ok (data : List Nat) (checksum : Nat)
deriving DecidableEq

/-- Lines 103-110 of storage.py: try `gzip.decompress`; on
`gzip.BadGzipFile` fall back to the raw stored bytes (legacy chunks). -/
def decompress_or_raw (stored_data : List Nat) : List Nat :=
  match gzip_decompress stored_data with
  | some d => d
  | none => stored_data

/-- Body of `retrieve_chunk` once the two files have been read: it only
depends on the contents of `{chunk_id}.chunk` (`chunkFile`) and
`{chunk_id}.checksum` (`checksumFile`). -/
def retrieve_core (chunkFile : Option (List Nat)) (checksumFile : Option Nat) :
    RetrieveResult :=
  match chunkFile with
  | none => .notFound
  | some stored_data =>
    let chunk_data := decompress_or_raw stored_data
    let calculated_checksum := calculate_checksum chunk_data
    match checksumFile with
    | some stored_checksum =>
      if calculated_checksum ≠ stored_checksum then .mismatch
      else .ok chunk_data calculated_checksum
    | none => .ok chunk_data calculated_checksum

/-- `ChunkStorage.retrieve_chunk` (storage.py lines 90-127). -/
def retrieve_chunk (st : ChunkStorage) (chunk_id : Nat) : RetrieveResult :=
  retrieve_core (alist_lookup st.chunks chunk_id) (alist_lookup st.checksums chunk_id)

/-- `ChunkStorage.delete_chunk` (storage.py lines 129-144): unlinks both
files; returns whether a `.chunk` file existed. -/
def delete_chunk (st : ChunkStorage) (chunk_id : Nat) : ChunkStorage × Bool :=
  ({ chunks := alist_remove st.chunks chunk_id,
     checksums := alist_remove st.checksums chunk_id },
   (alist_lookup st.chunks chunk_id).isSome)

/-- `ChunkStorage.get_stored_chunks` (storage.py lines 247-260): the ids of
the `*.chunk` files in the storage directory. -/
def get_stored_chunks (st : ChunkStorage) : List Nat :=
  st.chunks.map Prod.fst

/-- `ChunkStorage.verify_chunk_integrity` (storage.py lines 262-277):
retrieve (False on any `DFSStorageError`), then compare the recomputed
checksum against the sidecar once more; True when no sidecar exists. -/
def verify_chunk_integrity (st : ChunkStorage) (chunk_id : Nat) : Bool :=
  match retrieve_chunk st chunk_id with
  | .ok _ calculated_checksum =>
    match alist_lookup st.checksums chunk_id with
    | some stored_checksum => calculated_checksum = stored_checksum
    | none => true
  | _ => false

/-- Loop body of `cleanup_corrupted_chunks` (storage.py lines 279-290): the
chunk-id list is computed once up front; each id failing
`verify_chunk_integrity` against the current state is deleted and appended
to the returned list. -/
def cleanup_loop (st : ChunkStorage) (ids : List Nat) (corrupted : List Nat) :
    ChunkStorage × List Nat :=
  match ids with
  | [] => (st, corrupted)
  | chunk_id :: rest =>
    if verify_chunk_integrity st chunk_id then cleanup_loop st rest corrupted
    else cleanup_loop (delete_chunk st chunk_id).1 rest (corrupted ++ [chunk_id])

/-- `ChunkStorage.cleanup_corrupted_chunks` (storage.py lines 279-290). -/
def cleanup_corrupted_chunks (st : ChunkStorage) : ChunkStorage × List Nat :=
  cleanup_loop st (get_stored_chunks st) []

/-! ## Filesystem mutation trace of `store_chunk`

For the atomicity claim the relevant observable is the sequence of
filesystem mutations the success path of `store_chunk` performs, in
program order. Paths in the storage directory are the two final per-chunk
files plus (hypothetical) temporary names. -/

inductive FsPath
  | chunkFile (chunk_id : Nat)
  | checksumFile (chunk_id : Nat)
  | tempFile (name : Nat)
deriving DecidableEq

/-- A filesystem mutation: `write p` models `open(p, "wb").write(...)` at
path `p` (create or truncate in place), `rename` models `os.rename` /
`Path.rename`. Payloads are tracked by `store_chunk` itself; the trace
records which paths are mutated and how. -/
inductive FsEvent
  | write (path : FsPath)
  | rename (src dst : FsPath)
deriving DecidableEq

/-- Filesystem mutations of the success path of `store_chunk`
(storage.py lines 49-55): a direct write of the compressed payload to
`{chunk_id}.chunk`, then a direct write of the checksum to
`{chunk_id}.checksum`. No other mutation occurs on this path. -/
def store_chunk_events (chunk_id : Nat) : List FsEvent :=
  [FsEvent.write (FsPath.chunkFile chunk_id),
   FsEvent.write (FsPath.checksumFile chunk_id)]

/-- The write-to-temp-then-rename discipline, as the spec words it: every
write lands on a temporary name and a rename moves data into place. -/
def writes_via_temp_then_rename (events : List FsEvent) : Bool :=
  events.all (fun e =>
    match e with
    | .write p => match p with | .tempFile _ => true | _ => false
    | .rename _ _ => true)
  && events.any (fun e => match e with | .rename _ _ => true | _ => false)

/-! ## Metadata data model (`shared/models.py`, SQLite rows)

`files` rows carry their ordered `ChunkEntry` list (the `chunks_json`
column). Timestamp columns (`created_at`, `modified_at`, `deleted_at`) are
not modelled; no claim depends on them. Time instants elsewhere are `Nat`
(ISO-8601 UTC strings compare like instants). -/

inductive ChunkState
  | pending
  | committed
  | corrupted
  | deleted
deriving DecidableEq

structure ReplicaInfo where
  node_id : String
  url : String
  state : ChunkState
  last_heartbeat : Option Nat
  checksum_verified : Bool
deriving DecidableEq

structure ChunkEntry where
  chunk_id : Nat
  seq_index : Nat
  size : Nat
  checksum : Option Nat
  replicas : List ReplicaInfo
deriving DecidableEq

instance : Inhabited ChunkEntry := ⟨⟨0, 0, 0, none, []⟩⟩

structure FileRow where
  file_id : Nat
  path : String
  size : Nat
  is_deleted : Bool
  chunks : List ChunkEntry
deriving DecidableEq

structure LeaseRow where
  lease_id : Nat
  path : String
  operation : String
  expires_at : Nat
deriving DecidableEq

/-- The fields of a `nodes` row the placement planner reads. -/
structure NodeRow where
  host : String
  port : Nat
deriving DecidableEq

instance : Inhabited NodeRow := ⟨⟨"localhost", 8001⟩⟩

structure ChunkTarget where
  chunk_id : Nat
  size : Nat
  targets : List String
deriving DecidableEq

structure ChunkCommitInfo where
  chunk_id : Nat
  checksum : Nat
  nodes : List String
deriving DecidableEq

/-! ## Heartbeat-driven replica sync
(`storage_with_sqlite.py::update_node_heartbeat` lines 465-579 and
`_update_replicas_from_heartbeat` lines 581-667; only the effect on the
`files` table is modelled — the claim is about replica pruning). -/

/-- Per-chunk body of the loop in `_update_replicas_from_heartbeat`
(lines 605-651): if the node reports the chunk, upsert a `committed`
replica pointing at the node's URL; otherwise drop every replica carried
for this node. -/
def update_replica_for_chunk (node_id : String) (chunk_ids : List Nat)
    (node_url : String) (c : ChunkEntry) : ChunkEntry :=
  if c.chunk_id ∈ chunk_ids then
    if c.replicas.any (fun r => r.node_id = node_id) then
      { c with replicas := c.replicas.map (fun r =>
          if r.node_id = node_id then
            { r with state := ChunkState.committed, url := node_url }
          else r) }
    else
      { c with replicas := c.replicas ++
          [{ node_id := node_id, url := node_url,
             state := ChunkState.committed, last_heartbeat := none,
             checksum_verified := false }] }
  else
    { c with replicas := c.replicas.filter (fun r => r.node_id ≠ node_id) }

/-- `_update_replicas_from_heartbeat` (lines 581-667): every non-deleted
file row has each of its chunk entries synchronized against the reported
inventory; deleted rows are not selected. -/
def update_replicas_from_heartbeat (node_id : String) (chunk_ids : List Nat)
    (node_url : String) (files : List FileRow) : List FileRow :=
  files.map (fun f =>
    if f.is_deleted then f
    else { f with
           chunks := f.chunks.map (update_replica_for_chunk node_id chunk_ids node_url) })

/-- Effect of `update_node_heartbeat` (lines 465-579) on the `files`
table: line 575 guards the replica sync with `if chunk_ids:` — Python list
truthiness — so the sync runs only when the reported inventory is
non-empty. -/
def update_node_heartbeat_files (node_id : String) (chunk_ids : List Nat)
    (node_url : String) (files : List FileRow) : List FileRow :=
  if chunk_ids ≠ [] then
    update_replicas_from_heartbeat node_id chunk_ids node_url files
  else files

/-! ## Placement planner and upload-init
(`metadata/api/files.py::upload_init` lines 44-102 together with
`storage_with_sqlite.py::create_file_metadata` lines 163-217 and
`create_chunk_plan` lines 219-223).

Nondeterministic `uuid4()` calls are embedded by passing the fresh values
explicitly (`fresh_file_id`, `fresh_chunk_ids`). The active-node list is
the result of `get_active_nodes` (sorted by descending free space); the
planner receives it as a parameter. -/

/-- Line 56 of files.py: `num_chunks = (size + chunk_size - 1) // chunk_size`. -/
def num_chunks (size chunk_size : Nat) : Nat := (size + chunk_size - 1) / chunk_size

/-- Line 79 of files.py: target URL for a planned replica. -/
def node_url_of (n : NodeRow) : String := "http://" ++ n.host ++ ":" ++ toString n.port

/-- Lines 76-79 of files.py: index of the node chosen for replica `j` of
chunk `i` is `(i * R + j) % len(nodes)`. -/
def chunk_target_indices (node_count replication_factor i : Nat) : List Nat :=
  (List.range replication_factor).map
    (fun j => (i * replication_factor + j) % node_count)

/-- Target URL list for chunk `i` (lines 74-79 of files.py). -/
def chunk_targets (nodes : List NodeRow) (replication_factor i : Nat) : List String :=
  (chunk_target_indices nodes.length replication_factor i).map
    (fun idx => node_url_of (nodes.getD idx default))

/-- The per-chunk plan built by the loop at lines 70-82 of files.py:
chunk `i` has size `min(chunk_size, size - i * chunk_size)` and the
round-robin target list; `create_chunk_plan` supplies a fresh uuid. -/
def plan_chunks (size chunk_size replication_factor : Nat) (nodes : List NodeRow)
    (fresh_chunk_ids : List Nat) : List ChunkTarget :=
  (List.range (num_chunks size chunk_size)).map (fun i =>
    { chunk_id := fresh_chunk_ids.getD i 0,
      size := min chunk_size (size - i * chunk_size),
      targets := chunk_targets nodes replication_factor i })

/-- `create_file_metadata` (storage_with_sqlite.py lines 163-217): builds
`ChunkEntry` rows with empty replica lists from the plan and INSERTs the
file row. The `files.path` column is declared `UNIQUE` over the whole
table (line 70 of storage_with_sqlite.py), so the INSERT raises
`sqlite3.IntegrityError` — rethrown as `DFSMetadataError` — exactly when
any row, deleted or not, already carries the path. -/
def create_file_metadata (db : List FileRow) (file_id : Nat) (path : String)
    (size : Nat) (chunks : List ChunkTarget) : Except Unit (List FileRow) :=
  let entries : List ChunkEntry := chunks.enum.map (fun p =>
    { chunk_id := p.2.chunk_id, seq_index := p.1, size := p.2.size,
      checksum := none, replicas := [] })
  if db.any (fun f => f.path = path) then Except.error ()
  else Except.ok (db ++ [{ file_id := file_id, path := path, size := size,
                           is_deleted := false, chunks := entries }])

/-- HTTP outcome of the upload-init endpoint: 200 with the plan, 503
(`Nodos insuficientes`), or 500 (any other exception, in particular the
`DFSMetadataError` raised on a duplicate path and `ZeroDivisionError` for
`chunk_size = 0`). The handler never produces a 409. -/
inductive UploadInitOutcome
  | ok (file_id : Nat) (chunks : List ChunkTarget)
  | insufficientNodes
  | internalError
deriving DecidableEq

/-- `upload_init` (files.py lines 44-102). The handler never references
the lease manager, so the `leases` table passes through untouched; it is
threaded explicitly to make that observable. -/
def upload_init (db : List FileRow) (leases : List LeaseRow)
    (nodes : List NodeRow) (replication_factor : Nat)
    (fresh_file_id : Nat) (fresh_chunk_ids : List Nat)
    (path : String) (size chunk_size : Nat) :
    List FileRow × List LeaseRow × UploadInitOutcome :=
  if chunk_size = 0 then (db, leases, .internalError)
  else if nodes.length < replication_factor then (db, leases, .insufficientNodes)
  else
    let chunks := plan_chunks size chunk_size replication_factor nodes fresh_chunk_ids
    match create_file_metadata db fresh_file_id path size chunks with
    | Except.ok db2 => (db2, leases, .ok fresh_file_id chunks)
    | Except.error _ => (db, leases, .internalError)

/-! ## Commit
(`storage_with_sqlite.py::commit_file` lines 225-291 and
`metadata/api/files.py::commit_upload` lines 105-170). -/

/-- `_node_id_to_url` (storage_with_sqlite.py lines 804-819); the parsing
of `node-host-port` strings is irrelevant to the claims, the URL is kept
as a function of the node id. -/
def node_id_to_url (node_id : String) : String := "http://" ++ node_id

/-- Lines 250-262 of storage_with_sqlite.py: the entry matching a reported
chunk gets the reported checksum and a replica list rebuilt from the
reported node ids (state `committed`, `checksum_verified=True`). -/
def commit_entry (now : Nat) (c : ChunkEntry) (info : ChunkCommitInfo) : ChunkEntry :=
  { c with
    checksum := some info.checksum,
    replicas := info.nodes.map (fun nid =>
      { node_id := nid, url := node_id_to_url nid,
        state := ChunkState.committed, last_heartbeat := some now,
        checksum_verified := true }) }

/-- Effect of one `commit_info` iteration (lines 246-270 of
storage_with_sqlite.py) on the chunk-entry list: the entry with a matching
chunk id is updated; a `chunk_id` matching no entry is only logged
("no encontrado en metadata") and skipped. -/
def apply_commit_info (now : Nat) (entries : List ChunkEntry)
    (info : ChunkCommitInfo) : List ChunkEntry :=
  entries.map (fun c =>
    if c.chunk_id = info.chunk_id then commit_entry now c info else c)

/-- Cumulative effect of the whole `commit_info` loop on one chunk entry. -/
def commit_entry_fold (now : Nat) (infos : List ChunkCommitInfo) (c : ChunkEntry) :
    ChunkEntry :=
  infos.foldl (fun acc i => if acc.chunk_id = i.chunk_id then commit_entry now acc i else acc) c

/-- `commit_file` (lines 225-291): False only when no row carries the
file id; otherwise every reported chunk is applied (unknown ids skipped)
and the row is written back with success. -/
def commit_file (db : List FileRow) (file_id : Nat)
    (chunks : List ChunkCommitInfo) (now : Nat) : List FileRow × Bool :=
  match db.find? (fun f => f.file_id = file_id) with
  | none => (db, false)
  | some f =>
    let entries := chunks.foldl (apply_commit_info now) f.chunks
    (db.map (fun g => if g.file_id = file_id then { g with chunks := entries } else g),
     true)

/-- HTTP outcome of the commit endpoint: 200 with the list of
under-replicated chunk ids, or 400 (`No se pudo confirmar la subida`). -/
inductive CommitOutcome
  | committed (under_replicated : List Nat)
  | badRequest
deriving DecidableEq

/-- `commit_upload` (files.py lines 105-170): chunks reported with fewer
than `replication_factor` nodes are only collected into a warning list;
the request fails with 400 exactly when `commit_file` returns False. -/
def commit_upload (db : List FileRow) (replication_factor : Nat) (file_id : Nat)
    (chunks : List ChunkCommitInfo) (now : Nat) : List FileRow × CommitOutcome :=
  let under_replicated := (chunks.filter
    (fun c => c.nodes.length < replication_factor)).map (fun c => c.chunk_id)
  let res := commit_file db file_id chunks now
  if res.2 then (res.1, .committed under_replicated) else (res.1, .badRequest)

/-! ## Leases (`storage_with_sqlite.py` lines 710-767)

`SQLiteMetadataStorage` serializes its methods with a single
`asyncio.Lock`, which is **not reentrant**: a task awaiting
`lock.acquire()` while it already holds the lock suspends forever. The
lock is part of the embedded state (`locked`); an operation that suspends
forever returns `none`. -/

/-- `cleanup_expired_leases` (lines 758-767), including its
`async with self.lock` entry: with the lock already held by the caller the
coroutine never resumes (`none`); otherwise it deletes every lease with
`expires_at <= now`. -/
def cleanup_expired_leases_run (locked : Bool) (leases : List LeaseRow)
    (now : Nat) : Option (List LeaseRow) :=
  if locked then none
  else some (leases.filter (fun l => now < l.expires_at))

inductive AcquireOutcome
  | lease (lease_id : Nat) (path : String) (expires_at : Nat)
  | conflict
deriving DecidableEq

/-- `acquire_lease` (lines 710-742): takes `self.lock`, then awaits
`self.cleanup_expired_leases()` — which begins with
`async with self.lock:` on the same, already-held, non-reentrant lock.
The remaining body (conflict check on `expires_at > now`, fresh INSERT)
is reachable only if that call returned. -/
def acquire_lease (leases : List LeaseRow) (path operation : String)
    (timeout_seconds now fresh_lease_id : Nat) :
    Option (List LeaseRow × AcquireOutcome) :=
  -- async with self.lock: the lock is now held for the rest of the body
  match cleanup_expired_leases_run true leases now with
  | none => none
  | some leases2 =>
    if leases2.any (fun l => l.path = path && now < l.expires_at) then
      some (leases2, .conflict)
    else
      some (leases2 ++ [{ lease_id := fresh_lease_id, path := path,
                          operation := operation,
                          expires_at := now + timeout_seconds }],
            .lease fresh_lease_id path (now + timeout_seconds))

/-- The lease-table logic of `acquire_lease` as it reads with the
re-entrant-lock slip removed (cleanup runs, then the conflict check, then
the INSERT): used to state what the code would do at the failing input if
the body were reachable. -/
def acquire_lease_logic (leases : List LeaseRow) (path operation : String)
    (timeout_seconds now fresh_lease_id : Nat) :
    List LeaseRow × AcquireOutcome :=
  let leases2 := leases.filter (fun l => now < l.expires_at)
  if leases2.any (fun l => l.path = path && now < l.expires_at) then
    (leases2, .conflict)
  else
    (leases2 ++ [{ lease_id := fresh_lease_id, path := path,
                   operation := operation,
                   expires_at := now + timeout_seconds }],
     .lease fresh_lease_id path (now + timeout_seconds))

/-- Soft delete (`delete_file` with `permanent=False`,
storage_with_sqlite.py lines 323-348): sets `is_deleted` on every
non-deleted row with the path; reports whether any row was hit. -/
def delete_file_soft (db : List FileRow) (path : String) : List FileRow × Bool :=
  (db.map (fun f =>
     if f.path = path && f.is_deleted = false then { f with is_deleted := true } else f),
   db.any (fun f => f.path = path && f.is_deleted = false))

/-! # Theorems -/

/-! ## C5 — store/retrieve round trip -/

/-- C5: for every chunk id and byte string `b`, `store_chunk` followed by
`retrieve_chunk` on the same id, with no intervening writes, returns
exactly `b` together with the checksum of `b` computed by
`calculate_checksum` (SHA-256 hex in the source) — the same checksum value
the `store_chunk` result carried. -/
theorem store_retrieve_roundtrip (st : ChunkStorage) (chunk_id : Nat) (b : List Nat) :
    retrieve_chunk (store_chunk st chunk_id b).1 chunk_id =
      RetrieveResult.ok b (calculate_checksum b) ∧
    (store_chunk st chunk_id b).2.checksum = calculate_checksum b := by
  refine ⟨?_, rfl⟩
  simp [store_chunk, retrieve_chunk, alist_lookup_set_self, retrieve_core,
    decompress_or_raw, gzip_compress, gzip_decompress]

/-! ## C10 — missing checksum sidecar disables verification -/

/-- C10: when the `.chunk` file for an id is present but the `.checksum`
sidecar is absent, `retrieve_chunk` succeeds and returns the decompressed
(or raw legacy) bytes together with a freshly computed checksum, with no
comparison against any stored value — whatever the stored bytes are. -/
theorem retrieve_no_sidecar_skips_verification (st : ChunkStorage) (chunk_id : Nat)
    (d : List Nat) (hc : alist_lookup st.chunks chunk_id = some d)
    (hk : alist_lookup st.checksums chunk_id = none) :
    retrieve_chunk st chunk_id =
      RetrieveResult.ok (decompress_or_raw d) (calculate_checksum (decompress_or_raw d)) := by
  simp [retrieve_chunk, hc, hk, retrieve_core]

/-- Witness for C10 at a concrete store: one stored chunk, no sidecar;
retrieval succeeds with the decompressed bytes. -/
theorem retrieve_no_sidecar_skips_verification_witness :
    retrieve_chunk ⟨[(0, [31, 139, 5, 6])], []⟩ 0 =
      RetrieveResult.ok (decompress_or_raw [31, 139, 5, 6])
        (calculate_checksum (decompress_or_raw [31, 139, 5, 6])) :=
  retrieve_no_sidecar_skips_verification ⟨[(0, [31, 139, 5, 6])], []⟩ 0
    [31, 139, 5, 6] rfl rfl

/-! ## C8 — store_chunk write mechanism -/

/-- C8 counterexample: the filesystem trace of `store_chunk` for chunk id 0
does not follow the write-to-temp-then-rename discipline the claim
describes — it writes the final paths directly and performs no rename
(storage.py lines 49-55 call `open(chunk_path, "wb")` on the final path). -/
theorem store_chunk_not_temp_then_rename :
    writes_via_temp_then_rename (store_chunk_events 0) = false := rfl

/-- C8 amended: every filesystem mutation of the success path of
`store_chunk` is a direct write to one of the two final per-chunk paths,
and no rename is performed at all. -/
theorem store_chunk_writes_are_direct (chunk_id : Nat) :
    (∀ e ∈ store_chunk_events chunk_id,
      (e = FsEvent.write (FsPath.chunkFile chunk_id) ∨
       e = FsEvent.write (FsPath.checksumFile chunk_id)) ∧
      ∀ src dst, e ≠ FsEvent.rename src dst) := by
  intro e he
  simp only [store_chunk_events, List.mem_cons, List.mem_singleton,
    List.not_mem_nil, or_false] at he
  rcases he with h | h <;> subst h <;> exact ⟨by simp, fun _ _ h => by cases h⟩

/-- Witness for C8 (amended): the first mutation of `store_chunk` for
chunk 0 is not a rename. -/
theorem store_chunk_writes_are_direct_witness :
    FsEvent.write (FsPath.chunkFile 0) ≠
      FsEvent.rename (FsPath.tempFile 0) (FsPath.chunkFile 0) :=
  (store_chunk_writes_are_direct 0 (FsEvent.write (FsPath.chunkFile 0)) (by decide)).2
    (FsPath.tempFile 0) (FsPath.chunkFile 0)

/-! ## C6 — lease acquisition deadlocks -/

/-- C6: `SQLiteMetadataStorage.acquire_lease` never completes: holding the
storage-wide non-reentrant `asyncio.Lock`, it awaits
`cleanup_expired_leases`, whose own `async with self.lock` can never be
entered. Neither a fresh lease nor `Conflict` is ever produced. -/
theorem acquire_lease_never_returns (leases : List LeaseRow)
    (path operation : String) (timeout_seconds now fresh_lease_id : Nat) :
    acquire_lease leases path operation timeout_seconds now fresh_lease_id = none := rfl

/-! ## C1 — heartbeat-driven replica pruning -/

/-- C1 counterexample: a heartbeat from node `n1` with an **empty**
reported inventory is processed without pruning anything: the files table
is returned unchanged and the replica of unreported chunk 5 held for `n1`
survives (line 575 of storage_with_sqlite.py guards the sync with
`if chunk_ids:`). -/
theorem heartbeat_empty_inventory_no_prune :
    update_node_heartbeat_files "n1" [] "u2"
        [⟨1, "/f", 1, false, [⟨5, 0, 1, none,
          [⟨"n1", "u", ChunkState.committed, none, false⟩]⟩]⟩] =
      [⟨1, "/f", 1, false, [⟨5, 0, 1, none,
        [⟨"n1", "u", ChunkState.committed, none, false⟩]⟩]⟩] ∧
    ([⟨1, "/f", 1, false, [⟨5, 0, 1, none,
        [⟨"n1", "u", ChunkState.committed, none, false⟩]⟩]⟩] : List FileRow).any
      (fun f => !f.is_deleted && f.chunks.any (fun c =>
        c.replicas.any (fun r => r.node_id == "n1"))) = true := by
  constructor
  · rfl
  · rfl

/-- The per-chunk sync never changes the chunk id of an entry. -/
theorem update_replica_for_chunk_chunk_id (node_id : String) (chunk_ids : List Nat)
    (node_url : String) (c : ChunkEntry) :
    (update_replica_for_chunk node_id chunk_ids node_url c).chunk_id = c.chunk_id := by
  unfold update_replica_for_chunk
  split
  · split <;> rfl
  · rfl

/-- C1 amended: for every heartbeat whose reported inventory is
**non-empty**, for every non-deleted file and every chunk entry in the
result: if the chunk id was not reported, no replica for the reporting
node remains. (With an empty inventory the sync is skipped entirely.) -/
theorem heartbeat_prunes_unreported (node_id : String) (chunk_ids : List Nat)
    (node_url : String) (files : List FileRow) (hne : chunk_ids ≠ [])
    (f : FileRow)
    (hf : f ∈ update_node_heartbeat_files node_id chunk_ids node_url files)
    (hdel : f.is_deleted = false) (c : ChunkEntry) (hc : c ∈ f.chunks)
    (hun : c.chunk_id ∉ chunk_ids) (r : ReplicaInfo) (hr : r ∈ c.replicas) :
    r.node_id ≠ node_id := by
  rw [update_node_heartbeat_files, if_pos hne] at hf
  rw [update_replicas_from_heartbeat, List.mem_map] at hf
  obtain ⟨f0, hf0, hmap⟩ := hf
  by_cases hd0 : f0.is_deleted
  · rw [if_pos hd0] at hmap
    rw [← hmap] at hdel
    rw [hdel] at hd0
    cases hd0
  · rw [if_neg hd0] at hmap
    subst hmap
    simp only [List.mem_map] at hc
    obtain ⟨c0, hc0, hcmap⟩ := hc
    subst hcmap
    rw [update_replica_for_chunk_chunk_id] at hun
    rw [update_replica_for_chunk, if_neg hun] at hr
    simp only [List.mem_filter] at hr
    simpa using hr.2

/-- Witness for C1 (amended) at a concrete state: node `n1` heartbeats
with inventory `[6]`; chunk 5 is unreported, so after the sync its entry
keeps only the `n2` replica, to which the theorem applies. -/
theorem heartbeat_prunes_unreported_witness :
    (⟨"n2", "u", ChunkState.committed, none, false⟩ : ReplicaInfo).node_id ≠ "n1" :=
  heartbeat_prunes_unreported "n1" [6] "u2"
    [⟨1, "/f", 1, false, [⟨5, 0, 1, none,
      [⟨"n1", "u", ChunkState.committed, none, false⟩,
       ⟨"n2", "u", ChunkState.committed, none, false⟩]⟩]⟩]
    (by decide)
    ⟨1, "/f", 1, false, [⟨5, 0, 1, none,
      [⟨"n2", "u", ChunkState.committed, none, false⟩]⟩]⟩
    (by decide) rfl
    ⟨5, 0, 1, none, [⟨"n2", "u", ChunkState.committed, none, false⟩]⟩
    (by decide) (by decide)
    ⟨"n2", "u", ChunkState.committed, none, false⟩ (by decide)

/-! ## C7 — the corruption sweep deletes corrupted chunks -/

/-- Verification of a chunk id only reads that id's two files. -/
theorem verify_chunk_integrity_congr (st st2 : ChunkStorage) (j : Nat)
    (hc : alist_lookup st2.chunks j = alist_lookup st.chunks j)
    (hk : alist_lookup st2.checksums j = alist_lookup st.checksums j) :
    verify_chunk_integrity st2 j = verify_chunk_integrity st j := by
  simp [verify_chunk_integrity, retrieve_chunk, hc, hk]

theorem delete_chunk_lookup_chunks (st : ChunkStorage) (i j : Nat) :
    alist_lookup (delete_chunk st i).1.chunks j =
      if j = i then none else alist_lookup st.chunks j := by
  by_cases h : j = i
  · subst h
    simp [delete_chunk, alist_lookup_remove_self]
  · simp [delete_chunk, alist_lookup_remove_other _ _ _ h, h]

theorem delete_chunk_lookup_checksums (st : ChunkStorage) (i j : Nat) :
    alist_lookup (delete_chunk st i).1.checksums j =
      if j = i then none else alist_lookup st.checksums j := by
  by_cases h : j = i
  · subst h
    simp [delete_chunk, alist_lookup_remove_self]
  · simp [delete_chunk, alist_lookup_remove_other _ _ _ h, h]

theorem verify_after_delete_other (st : ChunkStorage) (i j : Nat) (hij : j ≠ i) :
    verify_chunk_integrity (delete_chunk st i).1 j = verify_chunk_integrity st j := by
  apply verify_chunk_integrity_congr
  · rw [delete_chunk_lookup_chunks, if_neg hij]
  · rw [delete_chunk_lookup_checksums, if_neg hij]

/-- Behavior of the cleanup loop on a duplicate-free id list: a lookup
after the loop is `none` exactly for the ids that were iterated and failed
verification (against the initial state), all other files are untouched,
and the returned list collects exactly the failing iterated ids. -/
theorem cleanup_loop_spec (ids : List Nat) (st : ChunkStorage) (acc : List Nat)
    (hnd : ids.Nodup) (j : Nat) :
    (alist_lookup (cleanup_loop st ids acc).1.chunks j =
      (if j ∈ ids ∧ verify_chunk_integrity st j = false then none
       else alist_lookup st.chunks j)) ∧
    (alist_lookup (cleanup_loop st ids acc).1.checksums j =
      (if j ∈ ids ∧ verify_chunk_integrity st j = false then none
       else alist_lookup st.checksums j)) ∧
    (cleanup_loop st ids acc).2 =
      acc ++ ids.filter (fun i => ! verify_chunk_integrity st i) := by
  induction ids generalizing st acc with
  | nil => simp [cleanup_loop]
  | cons i rest ih =>
    obtain ⟨hi, hrest⟩ := List.nodup_cons.mp hnd
    by_cases hv : verify_chunk_integrity st i
    · rw [show cleanup_loop st (i :: rest) acc = cleanup_loop st rest acc by
        simp [cleanup_loop, hv]]
      obtain ⟨h1, h2, h3⟩ := ih st acc hrest
      refine ⟨?_, ?_, ?_⟩
      · rw [h1]
        by_cases hj : j = i
        · subst hj
          simp [hv]
        · simp [List.mem_cons, hj]
      · rw [h2]
        by_cases hj : j = i
        · subst hj
          simp [hv]
        · simp [List.mem_cons, hj]
      · rw [h3, List.filter_cons, if_neg (by simp [hv])]
    · have hvf : verify_chunk_integrity st i = false := by
        simpa using hv
      rw [show cleanup_loop st (i :: rest) acc =
          cleanup_loop (delete_chunk st i).1 rest (acc ++ [i]) by
        simp [cleanup_loop, hvf]]
      obtain ⟨h1, h2, h3⟩ := ih (delete_chunk st i).1 (acc ++ [i]) hrest
      have hvcongr : ∀ x, x ≠ i →
          verify_chunk_integrity (delete_chunk st i).1 x = verify_chunk_integrity st x :=
        fun x hx => verify_after_delete_other st i x hx
      refine ⟨?_, ?_, ?_⟩
      · rw [h1, delete_chunk_lookup_chunks]
        by_cases hj : j = i
        · subst hj
          have : j ∉ rest := hi
          simp_all
        · rw [hvcongr j hj, if_neg hj]
          simp [List.mem_cons, hj]
      · rw [h2, delete_chunk_lookup_checksums]
        by_cases hj : j = i
        · subst hj
          have : j ∉ rest := hi
          simp_all
        · rw [hvcongr j hj, if_neg hj]
          simp [List.mem_cons, hj]
      · rw [h3, List.filter_congr (fun x hx => by
          rw [hvcongr x (fun he => hi (he ▸ hx))]),
          List.filter_cons, if_pos (by simp [hvf])]
        simp

/-- C7 counterexample: a store holding one chunk whose sidecar checksum
does not match (the corruption scenario). The sweep
(`cleanup_corrupted_chunks`) does **not** leave the files unchanged: the
chunk file of id 0 is deleted. -/
theorem cleanup_deletes_corrupted_cex :
    ¬ (alist_lookup
        (cleanup_corrupted_chunks ⟨[(0, gzip_compress [1, 2])], [(0, 0)]⟩).1.chunks 0 =
       alist_lookup (⟨[(0, gzip_compress [1, 2])], [(0, 0)]⟩ : ChunkStorage).chunks 0) := by
  decide

/-- C7 amended: `verify_chunk_integrity` only reports, but the sweep
`cleanup_corrupted_chunks` **deletes** both on-disk files of every stored
chunk that fails integrity verification; chunks that pass verification
(and ids with no `.chunk` file) keep both files unchanged, and the sweep
returns exactly the failing ids. -/
theorem cleanup_corrupted_chunks_spec (st : ChunkStorage)
    (hnd : (st.chunks.map Prod.fst).Nodup) (j : Nat) :
    (alist_lookup (cleanup_corrupted_chunks st).1.chunks j =
      (if j ∈ get_stored_chunks st ∧ verify_chunk_integrity st j = false then none
       else alist_lookup st.chunks j)) ∧
    (alist_lookup (cleanup_corrupted_chunks st).1.checksums j =
      (if j ∈ get_stored_chunks st ∧ verify_chunk_integrity st j = false then none
       else alist_lookup st.checksums j)) ∧
    (cleanup_corrupted_chunks st).2 =
      (get_stored_chunks st).filter (fun i => ! verify_chunk_integrity st i) := by
  have h := cleanup_loop_spec (get_stored_chunks st) st [] hnd j
  simpa [cleanup_corrupted_chunks] using h

/-- Witness for C7 (amended) at the corrupted one-chunk store: both files
of the failing chunk 0 are removed and the sweep reports `[0]`. -/
theorem cleanup_corrupted_chunks_spec_witness :
    (alist_lookup
        (cleanup_corrupted_chunks ⟨[(0, gzip_compress [1, 2])], [(0, 0)]⟩).1.chunks 0 =
      (if 0 ∈ get_stored_chunks ⟨[(0, gzip_compress [1, 2])], [(0, 0)]⟩ ∧
          verify_chunk_integrity ⟨[(0, gzip_compress [1, 2])], [(0, 0)]⟩ 0 = false then none
       else alist_lookup (⟨[(0, gzip_compress [1, 2])], [(0, 0)]⟩ : ChunkStorage).chunks 0)) ∧
    (alist_lookup
        (cleanup_corrupted_chunks ⟨[(0, gzip_compress [1, 2])], [(0, 0)]⟩).1.checksums 0 =
      (if 0 ∈ get_stored_chunks ⟨[(0, gzip_compress [1, 2])], [(0, 0)]⟩ ∧
          verify_chunk_integrity ⟨[(0, gzip_compress [1, 2])], [(0, 0)]⟩ 0 = false then none
       else alist_lookup (⟨[(0, gzip_compress [1, 2])], [(0, 0)]⟩ : ChunkStorage).checksums 0)) ∧
    (cleanup_corrupted_chunks ⟨[(0, gzip_compress [1, 2])], [(0, 0)]⟩).2 =
      (get_stored_chunks ⟨[(0, gzip_compress [1, 2])], [(0, 0)]⟩).filter
        (fun i => ! verify_chunk_integrity ⟨[(0, gzip_compress [1, 2])], [(0, 0)]⟩ i) :=
  cleanup_corrupted_chunks_spec ⟨[(0, gzip_compress [1, 2])], [(0, 0)]⟩ (by decide) 0

/-! ## C2 — upload-init and leases -/

/-- C2 counterexample: with a valid (unexpired at every instant below 100)
write lease held on `/x` by some other client, `upload_init` on `/x` does
**not** fail with Conflict: it succeeds and leaves the lease table
untouched — the handler (files.py lines 44-102) never references the lease
manager. -/
theorem upload_init_ignores_leases_cex :
    (upload_init [] [⟨1, "/x", "write", 100⟩] [⟨"h1", 1⟩, ⟨"h2", 2⟩, ⟨"h3", 3⟩] 3
        42 [7, 8] "/x" 5 4).2 =
      ([⟨1, "/x", "write", 100⟩],
       UploadInitOutcome.ok 42 (plan_chunks 5 4 3 [⟨"h1", 1⟩, ⟨"h2", 2⟩, ⟨"h3", 3⟩] [7, 8])) :=
  rfl

/-- C2 amended: `upload_init` acquires no lease and never returns
Conflict. Whatever the lease table holds, the first upload-init on a free
path succeeds and leaves the lease table untouched, and a second
upload-init on the same path fails with HTTP 500 (the `DFSMetadataError`
raised on the UNIQUE-path `IntegrityError`), not 409, again leaving both
the files and the lease table unchanged. -/
theorem upload_init_no_lease_spec (db : List FileRow) (leases : List LeaseRow)
    (nodes : List NodeRow) (R fid1 fid2 : Nat) (cids1 cids2 : List Nat)
    (path : String) (S1 csz1 S2 csz2 : Nat)
    (h1 : csz1 ≠ 0) (h2 : csz2 ≠ 0) (hR : ¬ nodes.length < R)
    (hfree : db.any (fun f => f.path = path) = false) :
    (upload_init db leases nodes R fid1 cids1 path S1 csz1).2.1 = leases ∧
    (upload_init db leases nodes R fid1 cids1 path S1 csz1).2.2 =
      UploadInitOutcome.ok fid1 (plan_chunks S1 csz1 R nodes cids1) ∧
    upload_init (upload_init db leases nodes R fid1 cids1 path S1 csz1).1 leases nodes R
        fid2 cids2 path S2 csz2 =
      ((upload_init db leases nodes R fid1 cids1 path S1 csz1).1, leases,
       UploadInitOutcome.internalError) := by
  have hfirst : upload_init db leases nodes R fid1 cids1 path S1 csz1 =
      (db ++ [{ file_id := fid1, path := path, size := S1, is_deleted := false,
                chunks := (plan_chunks S1 csz1 R nodes cids1).enum.map (fun p =>
                  { chunk_id := p.2.chunk_id, seq_index := p.1, size := p.2.size,
                    checksum := none, replicas := [] }) }],
       leases, UploadInitOutcome.ok fid1 (plan_chunks S1 csz1 R nodes cids1)) := by
    rw [upload_init, if_neg h1, if_neg hR]
    simp [create_file_metadata, hfree]
  refine ⟨by rw [hfirst], by rw [hfirst], ?_⟩
  rw [hfirst]
  rw [upload_init, if_neg h2, if_neg hR]
  simp [create_file_metadata, List.any_append]

/-- Witness for C2 (amended) at a concrete state: empty files table, one
unexpired foreign lease on `/x`, three active nodes, replication factor 3. -/
theorem upload_init_no_lease_spec_witness :
    (upload_init [] [⟨1, "/x", "write", 100⟩] [⟨"h1", 1⟩, ⟨"h2", 2⟩, ⟨"h3", 3⟩] 3
        42 [7, 8] "/x" 5 4).2.1 = [⟨1, "/x", "write", 100⟩] ∧
    (upload_init [] [⟨1, "/x", "write", 100⟩] [⟨"h1", 1⟩, ⟨"h2", 2⟩, ⟨"h3", 3⟩] 3
        42 [7, 8] "/x" 5 4).2.2 =
      UploadInitOutcome.ok 42 (plan_chunks 5 4 3 [⟨"h1", 1⟩, ⟨"h2", 2⟩, ⟨"h3", 3⟩] [7, 8]) ∧
    upload_init
        (upload_init [] [⟨1, "/x", "write", 100⟩] [⟨"h1", 1⟩, ⟨"h2", 2⟩, ⟨"h3", 3⟩] 3
          42 [7, 8] "/x" 5 4).1
        [⟨1, "/x", "write", 100⟩] [⟨"h1", 1⟩, ⟨"h2", 2⟩, ⟨"h3", 3⟩] 3
        43 [9, 10] "/x" 6 4 =
      ((upload_init [] [⟨1, "/x", "write", 100⟩] [⟨"h1", 1⟩, ⟨"h2", 2⟩, ⟨"h3", 3⟩] 3
          42 [7, 8] "/x" 5 4).1,
       [⟨1, "/x", "write", 100⟩], UploadInitOutcome.internalError) :=
  upload_init_no_lease_spec [] [⟨1, "/x", "write", 100⟩]
    [⟨"h1", 1⟩, ⟨"h2", 2⟩, ⟨"h3", 3⟩] 3 42 43 [7, 8] [9, 10] "/x" 5 4 6 4
    (by decide) (by decide) (by decide) rfl

/-! ## C3 — commit plan-mismatch handling -/

/-- C3 counterexample: a commit for an existing file that references only
the unknown chunk id 99 and omits the planned chunk 10 is **accepted**
(HTTP 200, recorded as committed with no warnings); the unknown id is
silently skipped. -/
theorem commit_accepts_plan_mismatch_cex :
    commit_upload [⟨1, "/f", 5, false, [⟨10, 0, 5, none, []⟩]⟩] 3 1
        [⟨99, 77, ["n1", "n2", "n3"]⟩] 0 =
      ([⟨1, "/f", 5, false, [⟨10, 0, 5, none, []⟩]⟩], CommitOutcome.committed []) := by
  rfl

theorem foldl_apply_commit_eq_map (now : Nat) (infos : List ChunkCommitInfo)
    (entries : List ChunkEntry) :
    infos.foldl (apply_commit_info now) entries =
      entries.map (commit_entry_fold now infos) := by
  induction infos generalizing entries with
  | nil =>
    rw [List.foldl_nil, show commit_entry_fold now [] = id from rfl, List.map_id]
  | cons i rest ih =>
    rw [List.foldl_cons, ih, apply_commit_info, List.map_map]
    have hfun : commit_entry_fold now rest ∘
        (fun c => if c.chunk_id = i.chunk_id then commit_entry now c i else c) =
        commit_entry_fold now (i :: rest) := by
      funext c
      rfl
    rw [hfun]

theorem commit_entry_fold_untouched (now : Nat) (infos : List ChunkCommitInfo)
    (c : ChunkEntry) (h : ∀ i ∈ infos, i.chunk_id ≠ c.chunk_id) :
    commit_entry_fold now infos c = c := by
  induction infos with
  | nil => rfl
  | cons i rest ih =>
    have hi : i.chunk_id ≠ c.chunk_id := h i (by simp)
    show commit_entry_fold now rest
        (if c.chunk_id = i.chunk_id then commit_entry now c i else c) = c
    rw [if_neg (fun he => hi he.symm)]
    exact ih (fun i2 hi2 => h i2 (by simp [hi2]))

/-- C3 amended: `commit_upload` rejects with HTTP 400 exactly when no File
row carries the given file id (and then leaves the table unchanged). When
the row exists the commit is always recorded as successful: reported
chunks whose id matches no planned entry are silently skipped, chunks with
fewer than `replication_factor` nodes are merely listed as warnings, and
every planned entry matched by no reported chunk keeps its previous entry
unchanged. -/
theorem commit_plan_mismatch_accepted (db : List FileRow) (R fid : Nat)
    (infos : List ChunkCommitInfo) (now : Nat) :
    (db.find? (fun g => g.file_id = fid) = none →
      commit_upload db R fid infos now = (db, CommitOutcome.badRequest)) ∧
    (∀ f, db.find? (fun g => g.file_id = fid) = some f →
      (commit_upload db R fid infos now).2 =
        CommitOutcome.committed
          ((infos.filter (fun c => c.nodes.length < R)).map (fun c => c.chunk_id)) ∧
      (commit_upload db R fid infos now).1 =
        db.map (fun g => if g.file_id = fid then
          { g with chunks := f.chunks.map (commit_entry_fold now infos) } else g) ∧
      (∀ c ∈ f.chunks, (∀ i ∈ infos, i.chunk_id ≠ c.chunk_id) →
        c ∈ f.chunks.map (commit_entry_fold now infos))) := by
  constructor
  · intro hnone
    simp [commit_upload, commit_file, hnone]
  · intro f hsome
    refine ⟨?_, ?_, ?_⟩
    · simp [commit_upload, commit_file, hsome]
    · simp [commit_upload, commit_file, hsome, foldl_apply_commit_eq_map]
    · intro c hc huntouched
      rw [List.mem_map]
      exact ⟨c, hc, commit_entry_fold_untouched now infos c huntouched⟩

/-- Witness for C3 (amended) at the counterexample state: the mismatching
commit is recorded as committed and the planned entry for chunk 10
survives unchanged. -/
theorem commit_plan_mismatch_accepted_witness :
    (commit_upload [⟨1, "/f", 5, false, [⟨10, 0, 5, none, []⟩]⟩] 3 1
        [⟨99, 77, ["n1", "n2", "n3"]⟩] 0).2 =
      CommitOutcome.committed
        (((([⟨99, 77, ["n1", "n2", "n3"]⟩] : List ChunkCommitInfo)).filter
          (fun c => c.nodes.length < 3)).map (fun c => c.chunk_id)) ∧
    (⟨10, 0, 5, none, []⟩ : ChunkEntry) ∈
      ([⟨10, 0, 5, none, []⟩] : List ChunkEntry).map
        (commit_entry_fold 0 [⟨99, 77, ["n1", "n2", "n3"]⟩]) := by
  have h := (commit_plan_mismatch_accepted
    [⟨1, "/f", 5, false, [⟨10, 0, 5, none, []⟩]⟩] 3 1
    [⟨99, 77, ["n1", "n2", "n3"]⟩] 0).2
    ⟨1, "/f", 5, false, [⟨10, 0, 5, none, []⟩]⟩ (by rfl)
  exact ⟨h.1, h.2.2 ⟨10, 0, 5, none, []⟩ (by simp) (by decide)⟩

/-! ## C9 — path uniqueness and soft-deleted files -/

/-- C9 counterexample: after soft-deleting the only file at `/p`, a new
upload-init at `/p` does **not** succeed: the soft-deleted row still holds
the path, the UNIQUE constraint fires and the request ends in HTTP 500
with no file created. -/
theorem soft_delete_blocks_recreate_cex :
    (upload_init (delete_file_soft [⟨1, "/p", 3, false, []⟩] "/p").1 []
        [⟨"h1", 1⟩, ⟨"h2", 2⟩, ⟨"h3", 3⟩] 3 42 [7, 8] "/p" 5 4).2.2 =
      UploadInitOutcome.internalError ∧
    (upload_init (delete_file_soft [⟨1, "/p", 3, false, []⟩] "/p").1 []
        [⟨"h1", 1⟩, ⟨"h2", 2⟩, ⟨"h3", 3⟩] 3 42 [7, 8] "/p" 5 4).1 =
      (delete_file_soft [⟨1, "/p", 3, false, []⟩] "/p").1 := by
  constructor
  · rfl
  · rfl

/-- C9 amended: the UNIQUE constraint on `files.path` spans **all** rows,
soft-deleted ones included. Soft deletion keeps the row (with its path),
so a later upload-init at the same path hits the constraint and fails
with HTTP 500, creating nothing. -/
theorem soft_deleted_path_blocks_recreate (db : List FileRow) (path : String)
    (leases : List LeaseRow) (nodes : List NodeRow) (R fid : Nat) (cids : List Nat)
    (S csz : Nat) (hcz : csz ≠ 0) (hR : ¬ nodes.length < R)
    (hhit : db.any (fun f => f.path = path && f.is_deleted = false) = true) :
    (delete_file_soft db path).1.any (fun f => f.path = path) = true ∧
    upload_init (delete_file_soft db path).1 leases nodes R fid cids path S csz =
      ((delete_file_soft db path).1, leases, UploadInitOutcome.internalError) := by
  have hany : (delete_file_soft db path).1.any (fun f => f.path = path) = true := by
    rw [List.any_eq_true] at hhit ⊢
    obtain ⟨f, hf, hcond⟩ := hhit
    refine ⟨if f.path = path && f.is_deleted = false then { f with is_deleted := true } else f,
      List.mem_map_of_mem _ hf, ?_⟩
    rw [hcond]
    simp only [Bool.and_eq_true, decide_eq_true_eq] at hcond
    simpa using hcond.1
  refine ⟨hany, ?_⟩
  rw [upload_init, if_neg hcz, if_neg hR]
  simp [create_file_metadata, hany]

/-- Witness for C9 (amended) at the one-file state used in the
counterexample. -/
theorem soft_deleted_path_blocks_recreate_witness :
    (delete_file_soft [⟨1, "/p", 3, false, []⟩] "/p").1.any
        (fun f => f.path = "/p") = true ∧
    upload_init (delete_file_soft [⟨1, "/p", 3, false, []⟩] "/p").1 []
        [⟨"h1", 1⟩, ⟨"h2", 2⟩, ⟨"h3", 3⟩] 3 42 [7, 8] "/p" 5 4 =
      ((delete_file_soft [⟨1, "/p", 3, false, []⟩] "/p").1, [],
       UploadInitOutcome.internalError) :=
  soft_deleted_path_blocks_recreate [⟨1, "/p", 3, false, []⟩] "/p" []
    [⟨"h1", 1⟩, ⟨"h2", 2⟩, ⟨"h3", 3⟩] 3 42 [7, 8] 5 4
    (by decide) (by decide) (by decide)

/-! ## C4 — placement-planner arithmetic -/

theorem num_chunks_ceil (S C : Nat) (hC : 0 < C) :
    S ≤ num_chunks S C * C ∧ num_chunks S C * C < S + C := by
  rw [num_chunks, Nat.mul_comm]
  have h1 := Nat.div_add_mod (S + C - 1) C
  have h2 := Nat.mod_lt (S + C - 1) hC
  generalize hm : C * ((S + C - 1) / C) = m at h1 ⊢
  omega

theorem num_chunks_zero (C : Nat) (hC : 0 < C) : num_chunks 0 C = 0 := by
  rw [num_chunks]
  exact Nat.div_eq_of_lt (by omega)

theorem chunk_target_indices_nodup (n R i : Nat) (hRn : R ≤ n) :
    (chunk_target_indices n R i).Nodup := by
  rw [chunk_target_indices]
  refine List.Nodup.map_on ?_ (List.nodup_range _)
  intro j1 h1 j2 h2 heq
  rw [List.mem_range] at h1 h2
  have hmod : j1 % n = j2 % n :=
    Nat.ModEq.add_left_cancel' (i * R) heq
  rwa [Nat.mod_eq_of_lt (Nat.lt_of_lt_of_le h1 hRn),
       Nat.mod_eq_of_lt (Nat.lt_of_lt_of_le h2 hRn)] at hmod

theorem chunk_target_indices_mem_lt (n R i : Nat) (hn : 0 < n) :
    ∀ x ∈ chunk_target_indices n R i, x < n := by
  intro x hx
  rw [chunk_target_indices, List.mem_map] at hx
  obtain ⟨j, _, hj⟩ := hx
  rw [← hj]
  exact Nat.mod_lt _ hn

theorem map_getD_nodup (nodes : List NodeRow) (hnd : nodes.Nodup)
    (idxs : List Nat) (hin : idxs.Nodup) (hlt : ∀ x ∈ idxs, x < nodes.length) :
    (idxs.map (fun idx => nodes.getD idx default)).Nodup := by
  refine List.Nodup.map_on ?_ hin
  intro a ha b hb heq
  have ha2 := hlt a ha
  have hb2 := hlt b hb
  rw [List.getD_eq_getElem _ _ ha2, List.getD_eq_getElem _ _ hb2] at heq
  exact (List.Nodup.getElem_inj_iff hnd).mp heq

theorem plan_chunks_get (S C R : Nat) (nodes : List NodeRow) (cids : List Nat)
    (i : Nat) (hi : i < num_chunks S C) :
    (plan_chunks S C R nodes cids)[i]? =
      some { chunk_id := cids.getD i 0, size := min C (S - i * C),
             targets := chunk_targets nodes R i } := by
  rw [plan_chunks, List.getElem?_map, List.getElem?_range hi]
  rfl

/-- C4: with chunk size `C > 0` and pairwise-distinct active-node rows: if
fewer than `R` nodes are active, upload-init fails with 503 and creates
nothing; otherwise the planned chunk list has exactly
`k = num_chunks S C = ceil(S / C)` entries (`S ≤ k·C < S + C`, and `k = 0`
when `S = 0`), chunk `i` has size `min(C, S − i·C)` and the round-robin
target list of `chunk_targets`, and each chunk's `R` target indices
`(i·R + j) % |N|` are pairwise distinct, as are the selected node rows. -/
theorem upload_init_plan_spec (db : List FileRow) (leases : List LeaseRow)
    (nodes : List NodeRow) (R fid : Nat) (cids : List Nat) (path : String)
    (S C : Nat) (hC : 0 < C) (hnd : nodes.Nodup) :
    (nodes.length < R →
      upload_init db leases nodes R fid cids path S C =
        (db, leases, UploadInitOutcome.insufficientNodes)) ∧
    (¬ nodes.length < R →
      (plan_chunks S C R nodes cids).length = num_chunks S C ∧
      S ≤ num_chunks S C * C ∧ num_chunks S C * C < S + C ∧
      (S = 0 → plan_chunks S C R nodes cids = []) ∧
      (∀ i, i < num_chunks S C →
        (plan_chunks S C R nodes cids)[i]? =
          some { chunk_id := cids.getD i 0, size := min C (S - i * C),
                 targets := chunk_targets nodes R i }) ∧
      (∀ i, (chunk_target_indices nodes.length R i).length = R ∧
            (chunk_target_indices nodes.length R i).Nodup ∧
            ((chunk_target_indices nodes.length R i).map
              (fun idx => nodes.getD idx default)).Nodup)) := by
  constructor
  · intro hlt
    rw [upload_init, if_neg (Nat.pos_iff_ne_zero.mp hC), if_pos hlt]
  · intro hge
    have hRn : R ≤ nodes.length := Nat.le_of_not_lt hge
    refine ⟨by simp [plan_chunks], (num_chunks_ceil S C hC).1,
      (num_chunks_ceil S C hC).2, ?_, ?_, ?_⟩
    · intro hS0
      subst hS0
      simp [plan_chunks, num_chunks_zero C hC]
    · intro i hi
      exact plan_chunks_get S C R nodes cids i hi
    · intro i
      refine ⟨by simp [chunk_target_indices],
        chunk_target_indices_nodup _ _ _ hRn, ?_⟩
      rcases Nat.eq_zero_or_pos R with hR0 | hRpos
      · subst hR0
        simp [chunk_target_indices]
      · have hn : 0 < nodes.length := Nat.lt_of_lt_of_le hRpos hRn
        exact map_getD_nodup nodes hnd _ (chunk_target_indices_nodup _ _ _ hRn)
          (chunk_target_indices_mem_lt _ _ _ hn)

/-- Witness for C4 at `S = 5`, `C = 4`, `R = 3`, three distinct active
nodes: the plan has `num_chunks 5 4 = 2` chunks covering the size, and the
target indices of chunk 1 are pairwise distinct. -/
theorem upload_init_plan_spec_witness :
    (plan_chunks 5 4 3 [⟨"h1", 1⟩, ⟨"h2", 2⟩, ⟨"h3", 3⟩] [7, 8]).length =
      num_chunks 5 4 ∧
    5 ≤ num_chunks 5 4 * 4 ∧
    (chunk_target_indices 3 3 1).Nodup := by
  have h := (upload_init_plan_spec [] [] [⟨"h1", 1⟩, ⟨"h2", 2⟩, ⟨"h3", 3⟩] 3 42
    [7, 8] "/x" 5 4 (by decide) (by decide)).2 (by decide)
  exact ⟨h.1, h.2.1, (h.2.2.2.2.2 1).2.1⟩

end DFS
